import Mathlib

/-!
# ws-test-tool: session / subscription lifecycle

A shallow embedding of `client.go` and `main.go`.

* Time (`time.Time`) is a number of nanoseconds on the process clock, the zero
  `time.Time{}` being `0`; a `time.Duration` is a number of nanoseconds clamped
  to the signed 64-bit range, as `Time.Sub` does.
* A Go `error` is `Option String`: `none` is `nil`, `some m` a non-nil error
  whose `Error()` text is `m`.
* Every call the client makes to the outside world (HTTP request, body read,
  websocket dial, websocket read, the clock) takes its result as an argument.
* A response body is represented by its JSON document tree, members in the
  order of the text and repeated member names kept, and the `gjson` path
  lookups used by the client (`Get`, `.Str`) by lookups on that tree.
-/

namespace WsTestTool

/-! ## gjson lookups on a JSON document -/

/-- JSON document tree. Object members keep their order in the text. -/
inductive Json where
  | null
  | bool (b : Bool)
  | num (n : Int)
  | str (s : String)
  | arr (xs : List Json)
  | obj (kvs : List (String × Json))

/-- Value of a decimal digit character. -/
def digitVal (c : Char) : Option Nat :=
  if c = '0' then some 0 else if c = '1' then some 1 else if c = '2' then some 2
  else if c = '3' then some 3 else if c = '4' then some 4 else if c = '5' then some 5
  else if c = '6' then some 6 else if c = '7' then some 7 else if c = '8' then some 8
  else if c = '9' then some 9 else none

/-- Reads a run of decimal digits as an array index (accumulator first). -/
def indexOfDigits : Nat → List Char → Option Nat
  | acc, [] => some acc
  | acc, c :: cs =>
    match digitVal c with
    | some d => indexOfDigits (acc * 10 + d) cs
    | none => none

/-- Array index denoted by a path component, when it is a non-empty run of digits. -/
def parseIndex (k : String) : Option Nat :=
  match k.data with
  | [] => none
  | cs => indexOfDigits 0 cs

/-- Search of the members of an object, in the order of the text, for the path
component `k`; `sub` is the lookup of the rest of the path in a member's value.
A member named `k` whose value does not hold the rest of the path is passed
over and the search goes on with the members after it, so of several members
with one name the first that leads to a hit is taken. -/
def findMember (k : String) (sub : Json → Option Json) : List (String × Json) → Option Json
  | [] => none
  | (k', v) :: rest =>
    if k' = k then
      match sub v with
      | some r => some r
      | none => findMember k sub rest
    else findMember k sub rest

/-- Lookup of a path, given as the list of its components, in a value. In an
object the component is a member name (`findMember`); in an array it is an
index, and only the element at that index is searched; a scalar holds no path
but the empty one. -/
def getPath : List String → Json → Option Json
  | [], j => some j
  | k :: ks, .obj kvs => findMember k (getPath ks) kvs
  | k :: ks, .arr xs =>
    match parseIndex k with
    | some i =>
      match xs.get? i with
      | some x => getPath ks x
      | none => none
    | none => none
  | _ :: _, _ => none

/-- The lookup `gjson.Get(json, path)` for a dotted path given as the list of its
components: the path `imdata.0.error.attributes.text` is
`["imdata", "0", "error", "attributes", "text"]`. `none` is gjson's
non-existent result. -/
def Json.get (j : Json) (path : List String) : Option Json := getPath path j

/-- The `Str` field of a gjson result: the text of a string value, the empty
string for every other value and for a non-existent result. -/
def resultStr : Option Json → String
  | some (.str s) => s
  | _ => ""

/-- Chained lookup `r.Get(path)` on a result `r`. -/
def resultGet (r : Option Json) (path : List String) : Option Json :=
  match r with
  | some j => j.get path
  | none => none

/-! ## Client state and the HTTP boundary -/

/-- Go `error` value: `none` is `nil`. -/
abbrev GoError := Option String

/-- Cookie of a `Set-Cookie` header or of the jar: name, value and `Path`
attribute (empty when the header has none). The cookies are session cookies of
the host: no `Domain`, `Expires` or `Max-Age` attribute. -/
structure Cookie where
  name : String
  value : String
  path : String

/-- Fields of `client` that change while the program runs, plus `jar`: the
entries of the cookie jar of its `httpClient` stored under the path `/`, oldest
first. They are the cookies that `Jar.Cookies(&c.url)` returns, in that order,
`c.url` having no path. -/
structure Client where
  host : String
  usr : String
  pwd : String
  jar : List Cookie
  lastRefresh : Int
  lastSubscriptionRefresh : Int
  subscriptionID : String

/-- HTTP response as the client sees it: status code, cookies set by the
server, and the outcome of `io.ReadAll` on the body. -/
structure Response where
  status : Nat
  cookies : List Cookie
  body : Except String Json

/-- Outcome of `httpClient.Get` / `httpClient.Post`: a transport error, or a response. -/
abbrev HttpOutcome := Except String Response

/-- Entry of one cookie of a response into the jar. A cookie whose `Path` is not
`/` is stored under another path and leaves these entries alone: the requests
of the client all go to paths under `/api/`, so a cookie without `Path` is
stored under `/api` or below. A cookie with `Path` `/` takes the place of the
entry of its name, or is added after the others. -/
def storeCookie (jar : List Cookie) (ck : Cookie) : List Cookie :=
  if ck.path ≠ "/" then jar
  else if jar.any (fun old => old.name = ck.name) then
    jar.map (fun old => if old.name = ck.name then ck else old)
  else jar ++ [ck]

/-- Cookie jar after a response: its cookies are entered in the order of the
headers, so of two cookies of one name the later one stays. -/
def storeCookies (jar : List Cookie) (set : List Cookie) : List Cookie :=
  set.foldl storeCookie jar

/-- State of the client once the HTTP layer has handled an outcome. -/
def afterHttp (c : Client) (o : HttpOutcome) : Client :=
  match o with
  | .error _ => c
  | .ok res => { c with jar := storeCookies c.jar res.cookies }

/-- Arguments of the program used by `newACIClient`. -/
structure Args where
  apic : String
  usr : String
  pwd : String
  cls : String

/-- The client built by `newACIClient`: empty jar, zero times, empty subscription id. -/
def newACIClient (a : Args) : Client :=
  { host := a.apic, usr := a.usr, pwd := a.pwd, jar := [],
    lastRefresh := 0, lastSubscriptionRefresh := 0, subscriptionID := "" }

/-- Value of the first cookie named `APIC-cookie` in a cookie list. -/
def findToken : List Cookie → String
  | [] => ""
  | ck :: rest => if ck.name = "APIC-cookie" then ck.value else findToken rest

/-- Login token of the client (`client.token`). -/
def token (c : Client) : String := findToken c.jar

/-- How a call ends: it returns an error value, or it panics. -/
inductive CallEnd where
  | returned (err : GoError)
  | panicked (msg : String)
deriving DecidableEq

/-- The HTTP status `http.StatusOK`. -/
def statusOK : Nat := 200

/-- Path of the first record of a reply. -/
def recordPath : List String := ["imdata", "0"]

/-- Path of the error text inside a record. -/
def errorTextPath : List String := ["error", "attributes", "text"]

/-- Path `imdata.0.error.attributes.text`. -/
def replyErrorPath : List String := ["imdata", "0", "error", "attributes", "text"]

/-- Path `subscriptionId`. -/
def subscriptionIdPath : List String := ["subscriptionId"]

/-- The call `client.login`: `o` is the outcome of the POST, `now` the clock
reading of `time.Now()`. -/
def login (c : Client) (o : HttpOutcome) (now : Int) : CallEnd × Client :=
  match o with
  | .error e => (.returned (some e), c)
  | .ok res =>
    let c1 := afterHttp c o
    if res.status ≠ statusOK then
      (.panicked ("HTTP status code: " ++ toString res.status), c1)
    else
      match res.body with
      | .error e => (.returned (some e), c1)
      | .ok body =>
        let record := body.get recordPath
        let errText := resultStr (resultGet record errorTextPath)
        if errText ≠ "" then (.returned (some errText), c1)
        else (.returned none, { c1 with lastRefresh := now })

/-- The call `client.subscribe`: `o` is the outcome of the GET, `now` the clock
reading of `time.Now()`. -/
def subscribe (c : Client) (o : HttpOutcome) (now : Int) : GoError × Client :=
  match o with
  | .error e => (some e, c)
  | .ok res =>
    let c1 := afterHttp c o
    match res.body with
    | .error e => (some e, c1)
    | .ok jsonRes =>
      let errStr := resultStr (jsonRes.get replyErrorPath)
      if errStr ≠ "" then (some errStr, c1)
      else
        let subscriptionID := resultStr (jsonRes.get subscriptionIdPath)
        if subscriptionID = "" then (some "no subscription ID in reply", c1)
        else (none, { c1 with subscriptionID := subscriptionID, lastSubscriptionRefresh := now })

/-- Scenario reply `{"subscriptionId":"", "imdata":[{}]}`. -/
def replyEmptyId : Json :=
  .obj [("subscriptionId", .str ""), ("imdata", .arr [.obj []])]

/-- Scenario reply `{"imdata":[{"error":{"attributes":{"text":"Token Timeout"}}}]}`. -/
def replyTokenTimeout : Json :=
  .obj [("imdata", .arr [.obj [("error", .obj [("attributes", .obj [("text", .str "Token Timeout")])])]])]

/-- Reply with both an error text and a subscription id:
`{"subscriptionId":"72057611234574337", "imdata":[{"error":{"attributes":{"text":"Token Timeout"}}}]}`. -/
def replyTimeoutWithId : Json :=
  .obj [("subscriptionId", .str "72057611234574337"),
    ("imdata", .arr [.obj [("error", .obj [("attributes", .obj [("text", .str "Token Timeout")])])]])]

/-- Reply with a repeated member and an empty id:
`{"imdata":[{}],"imdata":[{"error":{"attributes":{"text":"dup"}}}],"subscriptionId":""}`. -/
def replyRepeatedNoId : Json :=
  .obj [("imdata", .arr [.obj []]),
    ("imdata", .arr [.obj [("error", .obj [("attributes", .obj [("text", .str "dup")])])]]),
    ("subscriptionId", .str "")]

/-- Reply with a repeated member and an id:
`{"imdata":[{}],"imdata":[{"error":{"attributes":{"text":"dup"}}}],"subscriptionId":"72057611234574337"}`. -/
def replyRepeatedWithId : Json :=
  .obj [("imdata", .arr [.obj []]),
    ("imdata", .arr [.obj [("error", .obj [("attributes", .obj [("text", .str "dup")])])]]),
    ("subscriptionId", .str "72057611234574337")]

/-- Reply whose first `imdata` member is empty:
`{"imdata":[],"imdata":[{"error":{"attributes":{"text":"dup"}}}]}`. -/
def replyEmptyThenError : Json :=
  .obj [("imdata", .arr []),
    ("imdata", .arr [.obj [("error", .obj [("attributes", .obj [("text", .str "dup")])])]])]

/-- Reply `{"totalCount":"1", "subscriptionId":"72057611234574337", "imdata":[{}]}`. -/
def replySubscribedRecord : Json :=
  .obj [("totalCount", .str "1"), ("subscriptionId", .str "72057611234574337"),
    ("imdata", .arr [.obj []])]

/-- Reply `{"subscriptionId":"72057611234574337", "imdata":[]}`. -/
def replySubscribed : Json :=
  .obj [("subscriptionId", .str "72057611234574337"), ("imdata", .arr [])]

/-- A client in the middle of a run. -/
def sampleClient : Client :=
  { host := "apic1", usr := "admin", pwd := "secret", jar := [⟨"APIC-cookie", "T1", "/"⟩],
    lastRefresh := 5, lastSubscriptionRefresh := 7, subscriptionID := "old" }

/-- A successful HTTP exchange with the given body and no cookie. -/
def okReply (body : Json) : HttpOutcome := .ok { status := 200, cookies := [], body := .ok body }

/-! ## Token refresh and subscription refresh -/

/-- One second, in nanoseconds (`time.Second`). -/
def second : Int := 1000000000

/-- Largest `time.Duration`. -/
def maxDuration : Int := 9223372036854775807

/-- Smallest `time.Duration`. -/
def minDuration : Int := -9223372036854775808

/-- The duration `time.Since(t)` at clock reading `now`: the difference, clamped
to the range of `time.Duration`. -/
def timeSince (now t : Int) : Int :=
  if now - t > maxDuration then maxDuration
  else if now - t < minDuration then minDuration
  else now - t

/-- The call `client.refresh`: any response is a success. -/
def refresh (c : Client) (o : HttpOutcome) (now : Int) : GoError × Client :=
  match o with
  | .error e => (some e, c)
  | .ok _ => (none, { afterHttp c o with lastRefresh := now })

/-- The call `client.refreshSubscription`. -/
def refreshSubscription (c : Client) (o : HttpOutcome) (now : Int) : GoError × Client :=
  match o with
  | .error e => (some e, c)
  | .ok res =>
    let c1 := afterHttp c o
    match res.body with
    | .error e => (some e, c1)
    | .ok body =>
      let errStr := resultStr (body.get replyErrorPath)
      if errStr ≠ "" then (some errStr, c1)
      else (none, { c1 with lastSubscriptionRefresh := now })

/-- Request sent by a refresh loop. -/
inductive Request where
  | aaaRefresh
  | subscriptionRefresh (id : String)
deriving DecidableEq

/-- What one pass of a refresh loop meets: the clock reading of `time.Since`,
and, for the request it may issue, the outcome and the clock reading of the
`time.Now()` that follows it. -/
structure TickEnv where
  clock : Int
  reply : HttpOutcome
  doneAt : Int

/-- Result of one pass of a refresh loop: the requests issued, the error that
ends the loop (`none`: the loop sleeps one second and goes on), the client. -/
structure TickResult where
  requests : List Request
  err : GoError
  client : Client

/-- Threshold of `refreshLoop`. -/
def refreshLimit : Int := 60 * second

/-- Threshold of `subscriptionRefreshLoop`. -/
def subscriptionRefreshLimit : Int := 30 * second

/-- One pass of the body of `client.refreshLoop`. -/
def refreshTick (c : Client) (env : TickEnv) : TickResult :=
  let elapsed := timeSince env.clock c.lastRefresh
  let limit := refreshLimit
  if elapsed > limit then
    let r := refresh c env.reply env.doneAt
    { requests := [.aaaRefresh], err := r.1, client := r.2 }
  else
    { requests := [], err := none, client := c }

/-- One pass of the body of `client.subscriptionRefreshLoop`. -/
def subscriptionRefreshTick (c : Client) (env : TickEnv) : TickResult :=
  let elapsed := timeSince env.clock c.lastSubscriptionRefresh
  let limit := subscriptionRefreshLimit
  if elapsed > limit then
    let r := refreshSubscription c env.reply env.doneAt
    { requests := [.subscriptionRefresh c.subscriptionID], err := r.1, client := r.2 }
  else
    { requests := [], err := none, client := c }

/-- State of a loop after a finite run: still looping, or returned with an error. -/
inductive LoopEnd where
  | looping
  | returned (err : GoError)
deriving DecidableEq

/-- Run of a refresh loop: requests issued pass by pass, how it stands, the client. -/
structure LoopRun where
  requests : List (List Request)
  stop : LoopEnd
  client : Client

/-- Iteration of a loop body over the passes it gets to make. -/
def runTicks (tick : Client → TickEnv → TickResult) : Client → List TickEnv → LoopRun
  | c, [] => { requests := [], stop := .looping, client := c }
  | c, env :: rest =>
    let r := tick c env
    if r.err ≠ none then { requests := [r.requests], stop := .returned r.err, client := r.client }
    else
      let run := runTicks tick r.client rest
      { run with requests := r.requests :: run.requests }

/-- The loop `client.refreshLoop`. -/
def refreshLoop (c : Client) (ticks : List TickEnv) : LoopRun := runTicks refreshTick c ticks

/-- The loop `client.subscriptionRefreshLoop`. -/
def subscriptionRefreshLoop (c : Client) (ticks : List TickEnv) : LoopRun :=
  runTicks subscriptionRefreshTick c ticks

/-- A pass made at the given clock reading, whose request, if it issues one, is
answered with the body `null` one second later. -/
def tickAt (clock : Int) : TickEnv :=
  { clock := clock, reply := okReply .null, doneAt := clock + second }

/-! ## Event listener -/

/-- Websocket message payload. -/
abbrev Message := List UInt8

/-- Result of `ws.ReadMessage()`. -/
structure Read where
  msg : Message
  err : GoError

/-- What the listener does that can be observed: a message printed in pretty
form, a warning logged for a message, the stream closed. -/
inductive Event where
  | emit (msg : Message)
  | warn (msg : Message)
  | close
deriving DecidableEq

/-- Handling of one message by the listener: printed when `valid`, warned about
otherwise. -/
def handleMessage (valid : Message → Bool) (msg : Message) : Event :=
  if valid msg then .emit msg else .warn msg

/-- The call `client.listenSocket` on the reads the stream delivers; `valid` is
`gjson.ValidBytes`. With the reads used up the listener is blocked in the next
`ReadMessage`. The deferred `ws.Close()` runs when the function returns. -/
def listenSocket (valid : Message → Bool) : List Read → List Event × LoopEnd
  | [] => ([], .looping)
  | r :: rest =>
    if r.err ≠ none then ([.close], .returned r.err)
    else
      let run := listenSocket valid rest
      (handleMessage valid r.msg :: run.1, run.2)

/-- Messages printed, in order. -/
def emitted : List Event → List Message
  | [] => []
  | .emit m :: rest => m :: emitted rest
  | _ :: rest => emitted rest

/-- Messages warned about, in order. -/
def warned : List Event → List Message
  | [] => []
  | .warn m :: rest => m :: warned rest
  | _ :: rest => warned rest

/-- Number of times the stream is closed. -/
def closes : List Event → Nat
  | [] => 0
  | .close :: rest => closes rest + 1
  | _ :: rest => closes rest

/-- A validity test for the examples: accepts the message `{}` only. -/
def isEmptyObject (m : Message) : Bool := m = [123, 125]

/-- Successful read of a message. -/
def readOk (m : Message) : Read := { msg := m, err := none }

/-- The reads before the first failing one. -/
def readsBeforeFailure : List Read → List Read
  | [] => []
  | r :: rest => if r.err ≠ none then [] else r :: readsBeforeFailure rest

/-- Error of the first failing read, `none` when no read fails. -/
def firstFailure : List Read → GoError
  | [] => none
  | r :: rest => if r.err ≠ none then r.err else firstFailure rest

/-! ## The supervisor loop of `main` -/

/-- The constant `sleepDuration`. -/
def sleepDuration : Int := 30 * second

/-- Goroutines started by `main`. -/
inductive Goroutine where
  | refreshLoop
  | listenSocket
  | subscriptionRefreshLoop
deriving DecidableEq

/-- Whether a goroutine started by `main` ever receives from `errChan`: each of
them only sends on it. -/
def receivesFromErrChan : Goroutine → Bool
  | .refreshLoop => false
  | .listenSocket => false
  | .subscriptionRefreshLoop => false

/-- Whether a send on `errChan` by `main` completes. The channel is unbuffered
(`make(chan error)`), so a send completes only when another goroutine receives. -/
def sendCompletes (others : List Goroutine) : Bool := others.any receivesFromErrChan

/-- What `main` does, in order. -/
inductive Action where
  | login
  | spawn (g : Goroutine)
  | connectSocket
  | subscribe
  | send (err : String)
  | receive (err : GoError)
  | sleep (d : Int)
deriving DecidableEq

/-- A step of a background goroutine on the shared client before `main`
receives from `errChan`: a call of `refresh` or of `refreshSubscription`. -/
inductive BgEvent where
  | refresh (o : HttpOutcome) (now : Int)
  | refreshSubscription (o : HttpOutcome) (now : Int)

/-- Effect of a background step on the client. -/
def applyBg (c : Client) : BgEvent → Client
  | .refresh o now => (refresh c o now).2
  | .refreshSubscription o now => (refreshSubscription c o now).2

/-- What one pass of the loop of `main` meets: the outcome and clock reading of
the login, the error of the websocket dial, the outcome and clock reading of
the subscribe, the steps of the background goroutines while `main` waits on
`errChan`, and the value it receives there (`none`: nothing is ever sent). -/
structure AttemptEnv where
  loginReply : HttpOutcome
  loginAt : Int
  dial : GoError
  subscribeReply : HttpOutcome
  subscribeAt : Int
  background : List BgEvent
  received : Option GoError

/-- Where a finite run of `main` stands. -/
inductive MainEnd where
  | atLogin
  | panicked (msg : String)
  | blockedOnSend (err : String)
  | waitingOnErrChan
deriving DecidableEq

/-- A run of `main`: its actions, the client at the top of each pass of the
loop, the client at the end, and where `main` stands. -/
structure Run where
  actions : List Action
  starts : List Client
  client : Client
  stop : MainEnd

/-- A run that continues another one after a completed pass of the loop. -/
def Run.after (acts : List Action) (start : Client) (r : Run) : Run :=
  { r with actions := acts ++ r.actions, starts := start :: r.starts }

/-- Actions and goroutines of a conditional `go` statement. -/
def spawnIf (cond : Bool) (g : Goroutine) (gs : List Goroutine) : List Action × List Goroutine :=
  if cond then ([.spawn g], g :: gs) else ([], gs)

/-- The `for` loop of `main` on the client `c`, with the goroutines `gs` already
started, over the passes described by the list. `errChan <- err; continue`
carries on with the next pass when the send completes and blocks otherwise. -/
def mainLoop : Client → List Goroutine → List AttemptEnv → Run
  | c, _, [] => { actions := [], starts := [c], client := c, stop := .atLogin }
  | c, gs, env :: rest =>
    match login c env.loginReply env.loginAt with
    | (.panicked m, c1) => { actions := [.login], starts := [c], client := c1, stop := .panicked m }
    | (.returned (some e), c1) =>
      if sendCompletes gs then (mainLoop c1 gs rest).after [.login, .send e] c
      else { actions := [.login, .send e], starts := [c], client := c1, stop := .blockedOnSend e }
    | (.returned none, c1) =>
      let s2 := spawnIf (token c1 ≠ "") .refreshLoop gs
      let a2 := .login :: s2.1 ++ [.connectSocket]
      match env.dial with
      | some e =>
        if sendCompletes s2.2 then (mainLoop c1 s2.2 rest).after (a2 ++ [.send e]) c
        else { actions := a2 ++ [.send e], starts := [c], client := c1, stop := .blockedOnSend e }
      | none =>
        let gs3 := Goroutine.listenSocket :: s2.2
        let a3 := a2 ++ [.spawn .listenSocket, .subscribe]
        match subscribe c1 env.subscribeReply env.subscribeAt with
        | (some e, c2) =>
          if sendCompletes gs3 then (mainLoop c2 gs3 rest).after (a3 ++ [.send e]) c
          else { actions := a3 ++ [.send e], starts := [c], client := c2, stop := .blockedOnSend e }
        | (none, c2) =>
          let s4 := spawnIf (c2.subscriptionID ≠ "") .subscriptionRefreshLoop gs3
          let a4 := a3 ++ s4.1
          let c3 := env.background.foldl applyBg c2
          match env.received with
          | none => { actions := a4, starts := [c], client := c3, stop := .waitingOnErrChan }
          | some err =>
            if err ≠ none then
              (mainLoop c3 s4.2 rest).after (a4 ++ [.receive err, .sleep sleepDuration]) c
            else (mainLoop c3 s4.2 rest).after (a4 ++ [.receive err]) c

/-- The program: the client is built once, then the loop runs. -/
def runMain (a : Args) (passes : List AttemptEnv) : Run := mainLoop (newACIClient a) [] passes

/-- Program arguments of the examples. -/
def sampleArgs : Args := { apic := "apic1", usr := "admin", pwd := "secret", cls := "faultInst" }

/-- Login reply of a server that accepts the credentials and sets the token `T1`
with `Path=/`. -/
def loginAccepted : HttpOutcome :=
  .ok { status := 200, cookies := [⟨"APIC-cookie", "T1", "/"⟩], body := .ok (.obj [("imdata", .arr [.obj []])]) }

/-- A pass in which login, dial and subscribe succeed and the listener then
reports that the stream was closed. -/
def passStreamClosed : AttemptEnv :=
  { loginReply := loginAccepted, loginAt := 1 * second, dial := none,
    subscribeReply := okReply replySubscribed, subscribeAt := 2 * second,
    background := [], received := some (some "websocket: close 1006 (abnormal closure)") }

/-- A pass in which the server answers the login with status 503. -/
def passStatus503 : AttemptEnv :=
  { loginReply := .ok ⟨503, [], .ok .null⟩, loginAt := 1 * second, dial := none,
    subscribeReply := okReply replySubscribed, subscribeAt := 2 * second,
    background := [], received := none }

/-- A pass in which login succeeds and the websocket dial fails. -/
def passDialFails : AttemptEnv :=
  { loginReply := loginAccepted, loginAt := 1 * second, dial := some "websocket: bad handshake",
    subscribeReply := okReply replySubscribed, subscribeAt := 2 * second,
    background := [], received := some (some "EOF") }

/-- A pass in which login and dial succeed and the subscribe reply has no id. -/
def passSubscribeFails : AttemptEnv :=
  { loginReply := loginAccepted, loginAt := 1 * second, dial := none,
    subscribeReply := okReply replyEmptyId, subscribeAt := 2 * second,
    background := [], received := some (some "EOF") }

/-- A pass in which the login request fails in the transport. -/
def passLoginFails : AttemptEnv :=
  { loginReply := .error "dial tcp: connection refused", loginAt := 1 * second, dial := none,
    subscribeReply := okReply replySubscribed, subscribeAt := 2 * second,
    background := [], received := some (some "EOF") }

/-! ## Lemmas -/

theorem findMember_absent (k : String) (sub : Json → Option Json) (kvs : List (String × Json))
    (h : ∀ kv ∈ kvs, kv.1 ≠ k) : findMember k sub kvs = none := by
  induction kvs with
  | nil => rfl
  | cons kv rest ih =>
    obtain ⟨k', v⟩ := kv
    have hk : k' ≠ k := h (k', v) (List.mem_cons_self _ _)
    simp only [findMember, hk, if_false]
    exact ih (fun x hx => h x (List.mem_cons_of_mem _ hx))

theorem findMember_single (k : String) (sub : Json → Option Json) (v : Json)
    (pre post : List (String × Json))
    (hpre : ∀ kv ∈ pre, kv.1 ≠ k) (hpost : ∀ kv ∈ post, kv.1 ≠ k) :
    findMember k sub (pre ++ (k, v) :: post) = sub v := by
  induction pre with
  | nil =>
    simp only [List.nil_append, findMember, if_true]
    cases hsub : sub v with
    | none => exact findMember_absent k sub post hpost
    | some r => rfl
  | cons kv rest ih =>
    obtain ⟨k', v'⟩ := kv
    have hk : k' ≠ k := hpre (k', v') (List.mem_cons_self _ _)
    simp only [List.cons_append, findMember, hk, if_false]
    exact ih (fun x hx => hpre x (List.mem_cons_of_mem _ hx))

theorem record_error_text (pre post : List (String × Json)) (xs : List Json)
    (hpre : ∀ kv ∈ pre, kv.1 ≠ "imdata") (hpost : ∀ kv ∈ post, kv.1 ≠ "imdata") :
    resultGet ((Json.obj (pre ++ ("imdata", .arr xs) :: post)).get recordPath) errorTextPath
      = (Json.obj (pre ++ ("imdata", .arr xs) :: post)).get replyErrorPath := by
  simp only [Json.get, recordPath, replyErrorPath, getPath]
  rw [findMember_single "imdata" _ _ pre post hpre hpost,
    findMember_single "imdata" _ _ pre post hpre hpost]
  have h0 : parseIndex "0" = some 0 := by decide
  simp only [getPath, h0]
  cases xs.get? 0 with
  | none => rfl
  | some x => rfl

theorem login_ok_value (c : Client) (cookies : List Cookie) (body : Json) (now : Int) :
    login c (.ok ⟨200, cookies, .ok body⟩) now
      = if resultStr (resultGet (body.get recordPath) errorTextPath) ≠ "" then
          (.returned (some (resultStr (resultGet (body.get recordPath) errorTextPath))),
            afterHttp c (.ok ⟨200, cookies, .ok body⟩))
        else
          (.returned none, { afterHttp c (.ok ⟨200, cookies, .ok body⟩) with lastRefresh := now }) := by
  simp only [login, statusOK, ne_eq, not_true_eq_false, if_false]

theorem token_examples :
    findToken (storeCookies [] [⟨"APIC-cookie", "A", "/"⟩, ⟨"APIC-cookie", "B", "/"⟩]) = "B" ∧
    findToken (storeCookies [] [⟨"APIC-cookie", "T1", ""⟩]) = "" ∧
    findToken (storeCookies [⟨"other", "x", "/"⟩, ⟨"APIC-cookie", "T1", "/"⟩]
      [⟨"APIC-cookie", "T2", "/"⟩]) = "T2" ∧
    token (newACIClient sampleArgs) = "" := by
  decide

theorem lookup_examples :
    resultStr (replyRepeatedNoId.get replyErrorPath) = "dup" ∧
    resultStr (resultGet (replyRepeatedNoId.get recordPath) errorTextPath) = "" ∧
    resultStr (replyEmptyThenError.get replyErrorPath) = "dup" ∧
    resultStr (resultGet (replyEmptyThenError.get recordPath) errorTextPath) = "dup" ∧
    resultStr (replyTokenTimeout.get replyErrorPath) = "Token Timeout" ∧
    resultStr (replyEmptyId.get replyErrorPath) = "" ∧
    resultStr (replySubscribed.get subscriptionIdPath) = "72057611234574337" ∧
    resultStr ((Json.obj [("subscriptionId", .num 5), ("subscriptionId", .str "x")]).get
      subscriptionIdPath) = "" := by
  decide

theorem sendCompletes_false (gs : List Goroutine) : sendCompletes gs = false := by
  induction gs with
  | nil => rfl
  | cons g rest ih =>
    cases g <;> simpa [sendCompletes, receivesFromErrChan] using ih

theorem applyBg_subscriptionID (c : Client) (e : BgEvent) :
    (applyBg c e).subscriptionID = c.subscriptionID := by
  cases e with
  | refresh o now =>
    cases o <;> simp [applyBg, refresh, afterHttp]
  | refreshSubscription o now =>
    cases o with
    | error e => simp [applyBg, refreshSubscription]
    | ok res =>
      obtain ⟨status, cookies, body⟩ := res
      cases body with
      | error e => simp [applyBg, refreshSubscription, afterHttp]
      | ok b =>
        simp only [applyBg, refreshSubscription, afterHttp]
        split <;> rfl

theorem foldl_applyBg_subscriptionID (evs : List BgEvent) (c : Client) :
    (evs.foldl applyBg c).subscriptionID = c.subscriptionID := by
  induction evs generalizing c with
  | nil => rfl
  | cons e rest ih => simp only [List.foldl_cons]; rw [ih, applyBg_subscriptionID]

theorem subscribe_nil_subscriptionID (c c2 : Client) (o : HttpOutcome) (now : Int)
    (h : subscribe c o now = (none, c2)) : c2.subscriptionID ≠ "" := by
  cases o with
  | error e => simp [subscribe] at h
  | ok res =>
    obtain ⟨status, cookies, body⟩ := res
    cases body with
    | error e => simp [subscribe] at h
    | ok b =>
      by_cases herr : resultStr (b.get replyErrorPath) = ""
      · by_cases hid : resultStr (b.get subscriptionIdPath) = ""
        · simp [subscribe, herr, hid] at h
        · simp only [subscribe, herr, hid, ne_eq, not_true_eq_false, if_false,
            Prod.mk.injEq, true_and] at h
          rw [← h]
          exact hid
      · simp [subscribe, herr] at h

theorem mainLoop_starts_head (c : Client) (gs : List Goroutine) (envs : List AttemptEnv) :
    (mainLoop c gs envs).starts.get? 0 = some c := by
  cases envs with
  | nil => rfl
  | cons env rest =>
    simp only [mainLoop]
    split
    · rfl
    · split <;> rfl
    · split
      · split <;> rfl
      · split
        · split <;> rfl
        · split
          · rfl
          · split <;> rfl

/-! ## subscribe -/

/-- C1: when request and body read succeed and the reply has neither a non-empty
error text at `imdata.0.error.attributes.text` nor a non-empty string at
`subscriptionId`, `subscribe` returns the error "no subscription ID in reply"
and leaves `subscriptionID` and `lastSubscriptionRefresh` as they were; this
covers an absent id, an empty one and one that is not a string. A reply whose
second `imdata` member carries the error text "dup" has an error text at that
path, and `subscribe` returns "dup" for it. -/
theorem subscribe_without_id (c : Client) (status : Nat) (cookies : List Cookie) (body : Json)
    (now : Int)
    (herr : resultStr (body.get replyErrorPath) = "")
    (hid : resultStr (body.get subscriptionIdPath) = "") :
    ((subscribe c (.ok ⟨status, cookies, .ok body⟩) now).1 = some "no subscription ID in reply" ∧
      (subscribe c (.ok ⟨status, cookies, .ok body⟩) now).2.subscriptionID = c.subscriptionID ∧
      (subscribe c (.ok ⟨status, cookies, .ok body⟩) now).2.lastSubscriptionRefresh
        = c.lastSubscriptionRefresh) ∧
    (subscribe c (.ok ⟨status, cookies, .ok replyRepeatedNoId⟩) now).1 = some "dup" := by
  refine ⟨by simp [subscribe, herr, hid, afterHttp], ?_⟩
  have h : resultStr (replyRepeatedNoId.get replyErrorPath) = "dup" := by decide
  simp [subscribe, h]

theorem subscribe_without_id_witness :
    ((subscribe sampleClient (.ok ⟨200, [], .ok replyEmptyId⟩) 100).1
        = some "no subscription ID in reply" ∧
      (subscribe sampleClient (.ok ⟨200, [], .ok replyEmptyId⟩) 100).2.subscriptionID = "old" ∧
      (subscribe sampleClient (.ok ⟨200, [], .ok replyEmptyId⟩) 100).2.lastSubscriptionRefresh
        = 7) ∧
    (subscribe sampleClient (.ok ⟨200, [], .ok replyRepeatedNoId⟩) 100).1 = some "dup" :=
  subscribe_without_id sampleClient 200 [] replyEmptyId 100 (by decide) (by decide)

/-- C2: when request and body read succeed and the reply has a non-empty error
text at `imdata.0.error.attributes.text`, `subscribe` returns an error with
exactly that text, whatever the reply has at `subscriptionId`, and leaves
`subscriptionID` and `lastSubscriptionRefresh` as they were. -/
theorem subscribe_error_text (c : Client) (status : Nat) (cookies : List Cookie) (body : Json)
    (now : Int)
    (herr : resultStr (body.get replyErrorPath) ≠ "") :
    (subscribe c (.ok ⟨status, cookies, .ok body⟩) now).1
      = some (resultStr (body.get replyErrorPath)) ∧
    (subscribe c (.ok ⟨status, cookies, .ok body⟩) now).2.subscriptionID = c.subscriptionID ∧
    (subscribe c (.ok ⟨status, cookies, .ok body⟩) now).2.lastSubscriptionRefresh
      = c.lastSubscriptionRefresh := by
  simp [subscribe, herr, afterHttp]

theorem subscribe_error_text_witness :
    (subscribe sampleClient (.ok ⟨200, [], .ok replyTimeoutWithId⟩) 100).1
      = some "Token Timeout" ∧
    (subscribe sampleClient (.ok ⟨200, [], .ok replyTimeoutWithId⟩) 100).2.subscriptionID
      = "old" ∧
    (subscribe sampleClient (.ok ⟨200, [], .ok replyTimeoutWithId⟩) 100).2.lastSubscriptionRefresh
      = 7 :=
  subscribe_error_text sampleClient 200 [] replyTimeoutWithId 100 (by decide)

/-- C9: when request and body read succeed, `subscribe` returns nil exactly when
the reply has an empty or absent error text at `imdata.0.error.attributes.text`
and a non-empty string at `subscriptionId`; then `subscriptionID` is that
string, hence non-empty, and `lastSubscriptionRefresh` is the current time.
On a reply that has an id and, in its second `imdata` member, the error text
"dup", `subscribe` returns "dup" and stores nothing. -/
theorem subscribe_nil_iff (c : Client) (status : Nat) (cookies : List Cookie) (body : Json)
    (now : Int) :
    ((subscribe c (.ok ⟨status, cookies, .ok body⟩) now).1 = none ↔
      (resultStr (body.get replyErrorPath) = "" ∧
        resultStr (body.get subscriptionIdPath) ≠ "")) ∧
    ((subscribe c (.ok ⟨status, cookies, .ok body⟩) now).1 = none →
      (subscribe c (.ok ⟨status, cookies, .ok body⟩) now).2.subscriptionID
          = resultStr (body.get subscriptionIdPath) ∧
      (subscribe c (.ok ⟨status, cookies, .ok body⟩) now).2.subscriptionID ≠ "" ∧
      (subscribe c (.ok ⟨status, cookies, .ok body⟩) now).2.lastSubscriptionRefresh = now) ∧
    ((subscribe c (.ok ⟨status, cookies, .ok replyRepeatedWithId⟩) now).1 = some "dup" ∧
      (subscribe c (.ok ⟨status, cookies, .ok replyRepeatedWithId⟩) now).2.subscriptionID
          = c.subscriptionID ∧
      (subscribe c (.ok ⟨status, cookies, .ok replyRepeatedWithId⟩) now).2.lastSubscriptionRefresh
          = c.lastSubscriptionRefresh) := by
  have hdup : resultStr (replyRepeatedWithId.get replyErrorPath) = "dup" := by decide
  refine ⟨?_, ?_, by simp [subscribe, hdup, afterHttp]⟩
  · by_cases herr : resultStr (body.get replyErrorPath) = ""
    · by_cases hid : resultStr (body.get subscriptionIdPath) = ""
      · simp [subscribe, herr, hid]
      · simp [subscribe, herr, hid]
    · simp [subscribe, herr]
  · by_cases herr : resultStr (body.get replyErrorPath) = ""
    · by_cases hid : resultStr (body.get subscriptionIdPath) = ""
      · simp [subscribe, herr, hid]
      · simp [subscribe, herr, hid, afterHttp]
    · simp [subscribe, herr]

theorem subscribe_nil_iff_witness :
    ((subscribe sampleClient (.ok ⟨200, [], .ok replySubscribedRecord⟩) 100).2.subscriptionID
        = "72057611234574337" ∧
      (subscribe sampleClient (.ok ⟨200, [], .ok replySubscribedRecord⟩) 100).2.subscriptionID
        ≠ "" ∧
      (subscribe sampleClient (.ok ⟨200, [], .ok replySubscribedRecord⟩) 100).2.lastSubscriptionRefresh
        = 100) ∧
    (subscribe sampleClient (.ok ⟨200, [], .ok replySubscribedRecord⟩) 100).1 = none ∧
    (subscribe sampleClient (.ok ⟨200, [], .ok replyTimeoutWithId⟩) 100).1 ≠ none ∧
    (subscribe sampleClient (.ok ⟨200, [], .ok replyEmptyId⟩) 100).1 ≠ none :=
  ⟨(subscribe_nil_iff sampleClient 200 [] replySubscribedRecord 100).2.1 (by decide),
    (subscribe_nil_iff sampleClient 200 [] replySubscribedRecord 100).1.mpr
      ⟨by decide, by decide⟩,
    fun h => absurd ((subscribe_nil_iff sampleClient 200 [] replyTimeoutWithId 100).1.mp h).1
      (by decide),
    fun h => ((subscribe_nil_iff sampleClient 200 [] replyEmptyId 100).1.mp h).2 (by decide)⟩

/-! ## login -/

/-- C10: on a 200 response whose body is read, with the first record of the
body the value at `imdata.0` and its error text the string at
`error.attributes.text` in that record: `login` returns an error with exactly
that text and leaves `lastRefresh` as it was when the text is non-empty, and
returns nil and sets `lastRefresh` to the current time when it is empty or
absent. For a body with one member `imdata`, an array, that text is the value
at the path `imdata.0.error.attributes.text`. -/
theorem login_status_ok (c : Client) (cookies : List Cookie) (body : Json) (now : Int) :
    (resultStr (resultGet (body.get recordPath) errorTextPath) ≠ "" →
      (login c (.ok ⟨200, cookies, .ok body⟩) now).1
          = .returned (some (resultStr (resultGet (body.get recordPath) errorTextPath))) ∧
      (login c (.ok ⟨200, cookies, .ok body⟩) now).2.lastRefresh = c.lastRefresh) ∧
    (resultStr (resultGet (body.get recordPath) errorTextPath) = "" →
      (login c (.ok ⟨200, cookies, .ok body⟩) now).1 = .returned none ∧
      (login c (.ok ⟨200, cookies, .ok body⟩) now).2.lastRefresh = now) ∧
    (∀ pre post xs, body = .obj (pre ++ ("imdata", .arr xs) :: post) →
      (∀ kv ∈ pre, kv.1 ≠ "imdata") → (∀ kv ∈ post, kv.1 ≠ "imdata") →
      resultStr (resultGet (body.get recordPath) errorTextPath)
        = resultStr (body.get replyErrorPath)) := by
  rw [login_ok_value]
  refine ⟨?_, ?_, ?_⟩
  · intro h
    simp [h, afterHttp]
  · intro h
    simp [h]
  · intro pre post xs hbody hpre hpost
    rw [hbody, record_error_text pre post xs hpre hpost]

theorem login_status_ok_witness :
    ((login sampleClient (.ok ⟨200, [], .ok replyTokenTimeout⟩) 100).1
        = .returned (some "Token Timeout") ∧
      (login sampleClient (.ok ⟨200, [], .ok replyTokenTimeout⟩) 100).2.lastRefresh = 5) ∧
    ((login sampleClient (.ok ⟨200, [], .ok replyEmptyThenError⟩) 100).1
        = .returned (some "dup") ∧
      (login sampleClient (.ok ⟨200, [], .ok replyEmptyThenError⟩) 100).2.lastRefresh = 5) ∧
    ((login sampleClient (.ok ⟨200, [], .ok replyEmptyId⟩) 100).1 = .returned none ∧
      (login sampleClient (.ok ⟨200, [], .ok replyEmptyId⟩) 100).2.lastRefresh = 100) ∧
    ((login sampleClient (.ok ⟨200, [], .ok replyRepeatedWithId⟩) 100).1 = .returned none ∧
      (login sampleClient (.ok ⟨200, [], .ok replyRepeatedWithId⟩) 100).2.lastRefresh = 100) ∧
    resultStr (resultGet (replyTokenTimeout.get recordPath) errorTextPath)
      = resultStr (replyTokenTimeout.get replyErrorPath) :=
  ⟨(login_status_ok sampleClient [] replyTokenTimeout 100).1 (by decide),
    (login_status_ok sampleClient [] replyEmptyThenError 100).1 (by decide),
    (login_status_ok sampleClient [] replyEmptyId 100).2.1 (by decide),
    (login_status_ok sampleClient [] replyRepeatedWithId 100).2.1 (by decide),
    (login_status_ok sampleClient [] replyTokenTimeout 100).2.2 [] []
      [.obj [("error", .obj [("attributes", .obj [("text", .str "Token Timeout")])])]]
      rfl (by simp) (by simp)⟩

/-- C3, as the code stands: on a response whose status is not 200, `login`
panics with the message "HTTP status code: " followed by the status, returns
nothing to its caller, and the loop of `main` ends in that panic. -/
theorem login_status_not_ok (c : Client) (status : Nat) (cookies : List Cookie)
    (body : Except String Json) (now : Int) (gs : List Goroutine) (env : AttemptEnv)
    (rest : List AttemptEnv)
    (hstatus : status ≠ 200)
    (hreply : env.loginReply = .ok ⟨status, cookies, body⟩) :
    (login c (.ok ⟨status, cookies, body⟩) now).1
        = .panicked ("HTTP status code: " ++ toString status) ∧
    (∀ err, (login c (.ok ⟨status, cookies, body⟩) now).1 ≠ .returned err) ∧
    (mainLoop c gs (env :: rest)).stop
        = .panicked ("HTTP status code: " ++ toString status) ∧
    (mainLoop c gs (env :: rest)).actions = [.login] := by
  have h1 : ∀ t, login c (.ok ⟨status, cookies, body⟩) t
      = (.panicked ("HTTP status code: " ++ toString status),
          afterHttp c (.ok ⟨status, cookies, body⟩)) := by
    intro t
    simp [login, statusOK, hstatus]
  have h2 := h1 env.loginAt
  rw [← hreply] at h2
  refine ⟨by rw [h1 now], ?_, ?_, ?_⟩
  · intro err
    rw [h1 now]
    exact fun h => CallEnd.noConfusion h
  · simp only [mainLoop, h2]
  · simp only [mainLoop, h2]

theorem login_status_not_ok_witness :
    (login sampleClient (.ok ⟨503, [], .ok .null⟩) 100).1
        = .panicked ("HTTP status code: " ++ toString 503) ∧
    (∀ err, (login sampleClient (.ok ⟨503, [], .ok .null⟩) 100).1 ≠ .returned err) ∧
    (mainLoop sampleClient [] [passStatus503]).stop
        = .panicked ("HTTP status code: " ++ toString 503) ∧
    (mainLoop sampleClient [] [passStatus503]).actions = [.login] :=
  login_status_not_ok sampleClient 503 [] (.ok .null) 100 [] passStatus503 [] (by decide) rfl

/-- C3 fails on the code: on a 503 response `login` panics with
"HTTP status code: 503" and returns no error value to its caller. -/
theorem login_status_503_panics :
    (login sampleClient (.ok ⟨503, [], .ok .null⟩) 100).1 = .panicked "HTTP status code: 503" ∧
    ¬ ∃ err, (login sampleClient (.ok ⟨503, [], .ok .null⟩) 100).1 = .returned err := by
  have h : (login sampleClient (.ok ⟨503, [], .ok .null⟩) 100).1
      = .panicked "HTTP status code: 503" := by decide
  refine ⟨h, ?_⟩
  rintro ⟨err, herr⟩
  rw [h] at herr
  exact CallEnd.noConfusion herr

/-! ## The supervisor loop -/

/-- C4 on the code: when the login request fails, when the websocket dial
fails and when subscribe fails, `main` blocks in `errChan <- err` (no goroutine
receives from the unbuffered channel), so it neither sleeps nor logs in again,
whatever passes would follow; only an error received from a background
goroutine is followed by the 30 second sleep and a new pass at login. -/
theorem main_blocks_on_direct_failure :
    (runMain sampleArgs [passLoginFails, passStreamClosed]).stop
        = .blockedOnSend "dial tcp: connection refused" ∧
    (runMain sampleArgs [passLoginFails, passStreamClosed]).actions
        = [.login, .send "dial tcp: connection refused"] ∧
    (runMain sampleArgs [passDialFails, passStreamClosed]).stop
        = .blockedOnSend "websocket: bad handshake" ∧
    (runMain sampleArgs [passDialFails, passStreamClosed]).actions
        = [.login, .spawn .refreshLoop, .connectSocket, .send "websocket: bad handshake"] ∧
    (runMain sampleArgs [passSubscribeFails, passStreamClosed]).stop
        = .blockedOnSend "no subscription ID in reply" ∧
    (runMain sampleArgs [passSubscribeFails, passStreamClosed]).actions
        = [.login, .spawn .refreshLoop, .connectSocket, .spawn .listenSocket, .subscribe,
            .send "no subscription ID in reply"] ∧
    (runMain sampleArgs [passStreamClosed]).stop = .atLogin ∧
    (runMain sampleArgs [passStreamClosed]).actions
        = [.login, .spawn .refreshLoop, .connectSocket, .spawn .listenSocket, .subscribe,
            .spawn .subscriptionRefreshLoop,
            .receive (some "websocket: close 1006 (abnormal closure)"),
            .sleep (30 * second)] := by
  decide

/-- C5 fails on the code: after a pass in which login and subscribe succeeded
and the listener reported a closed stream, the second pass starts on a client
that still has the subscription id, the token cookie and both refresh times of
the first pass. -/
theorem second_pass_keeps_state :
    ((runMain sampleArgs [passStreamClosed]).starts.get? 1).map (fun c => c.subscriptionID)
        = some "72057611234574337" ∧
    ((runMain sampleArgs [passStreamClosed]).starts.get? 1).map token = some "T1" ∧
    ((runMain sampleArgs [passStreamClosed]).starts.get? 1).map (fun c => c.lastRefresh)
        = some (1 * second) ∧
    ((runMain sampleArgs [passStreamClosed]).starts.get? 1).map
        (fun c => c.lastSubscriptionRefresh) = some (2 * second) ∧
    ¬ (∀ c, (runMain sampleArgs [passStreamClosed]).starts.get? 1 = some c →
        c.subscriptionID = "" ∧ token c = "") := by
  refine ⟨by decide, by decide, by decide, by decide, ?_⟩
  intro h
  have hid : ((runMain sampleArgs [passStreamClosed]).starts.get? 1).map
      (fun c => c.subscriptionID) = some "72057611234574337" := by decide
  cases hc : (runMain sampleArgs [passStreamClosed]).starts.get? 1 with
  | none => rw [hc] at hid; exact Option.noConfusion hid
  | some c =>
    rw [hc] at hid
    have h1 := (h c hc).1
    simp only [Option.map_some', Option.some.injEq] at hid
    rw [h1] at hid
    exact absurd hid (by decide)

/-- C5, as the code stands: the loop of `main` goes on with the one client built
before the loop. After a pass in which login, dial and subscribe succeeded and
a value was received on `errChan`, the next pass starts on the client that pass
left, background refreshes included, and its `subscriptionID` is still the
non-empty id that subscribe stored. -/
theorem next_pass_reuses_client (c c1 c2 : Client) (gs : List Goroutine) (env : AttemptEnv)
    (rest : List AttemptEnv) (err : GoError)
    (hlogin : login c env.loginReply env.loginAt = (.returned none, c1))
    (hdial : env.dial = none)
    (hsub : subscribe c1 env.subscribeReply env.subscribeAt = (none, c2))
    (hrecv : env.received = some err) :
    (mainLoop c gs (env :: rest)).starts.get? 1 = some (env.background.foldl applyBg c2) ∧
    (env.background.foldl applyBg c2).subscriptionID = c2.subscriptionID ∧
    c2.subscriptionID ≠ "" := by
  refine ⟨?_, foldl_applyBg_subscriptionID _ _, ?_⟩
  · have hhead := mainLoop_starts_head (env.background.foldl applyBg c2)
      (spawnIf (c2.subscriptionID ≠ "") .subscriptionRefreshLoop
        (Goroutine.listenSocket :: (spawnIf (token c1 ≠ "") .refreshLoop gs).2)).2 rest
    simp only [mainLoop, hlogin, hdial, hsub, hrecv]
    split
    · simpa only [Run.after, List.get?_cons_succ] using hhead
    · simpa only [Run.after, List.get?_cons_succ] using hhead
  · exact subscribe_nil_subscriptionID c1 c2 env.subscribeReply env.subscribeAt hsub

theorem next_pass_reuses_client_witness :
    (mainLoop (newACIClient sampleArgs) [] [passStreamClosed]).starts.get? 1
        = some (passStreamClosed.background.foldl applyBg
            (subscribe (login (newACIClient sampleArgs) loginAccepted (1 * second)).2
              (okReply replySubscribed) (2 * second)).2) ∧
    (passStreamClosed.background.foldl applyBg
        (subscribe (login (newACIClient sampleArgs) loginAccepted (1 * second)).2
          (okReply replySubscribed) (2 * second)).2).subscriptionID
      = (subscribe (login (newACIClient sampleArgs) loginAccepted (1 * second)).2
          (okReply replySubscribed) (2 * second)).2.subscriptionID ∧
    (subscribe (login (newACIClient sampleArgs) loginAccepted (1 * second)).2
        (okReply replySubscribed) (2 * second)).2.subscriptionID ≠ "" :=
  next_pass_reuses_client (newACIClient sampleArgs)
    (login (newACIClient sampleArgs) loginAccepted (1 * second)).2
    (subscribe (login (newACIClient sampleArgs) loginAccepted (1 * second)).2
      (okReply replySubscribed) (2 * second)).2
    [] passStreamClosed [] (some "websocket: close 1006 (abnormal closure)")
    rfl rfl rfl rfl

/-! ## Refresh loops -/

theorem runTicks_quiet (tick : Client → TickEnv → TickResult) (c : Client)
    (quiet rest : List TickEnv)
    (h : ∀ t ∈ quiet, tick c t = { requests := [], err := none, client := c }) :
    (runTicks tick c (quiet ++ rest)).requests
        = quiet.map (fun _ => []) ++ (runTicks tick c rest).requests ∧
    (runTicks tick c (quiet ++ rest)).stop = (runTicks tick c rest).stop ∧
    (runTicks tick c (quiet ++ rest)).client = (runTicks tick c rest).client := by
  induction quiet with
  | nil => exact ⟨rfl, rfl, rfl⟩
  | cons t more ih =>
    have ht := h t (List.mem_cons_self t more)
    have ih' := ih (fun u hu => h u (List.mem_cons_of_mem t hu))
    simp only [List.cons_append, runTicks, ht, ne_eq, not_true_eq_false, if_false,
      List.map_cons]
    exact ⟨congrArg (List.cons []) ih'.1, ih'.2.1, ih'.2.2⟩

theorem runTicks_continue (tick : Client → TickEnv → TickResult) (c : Client) (env : TickEnv)
    (rest : List TickEnv) (h : (tick c env).err = none) :
    (runTicks tick c (env :: rest)).requests
        = (tick c env).requests :: (runTicks tick (tick c env).client rest).requests ∧
    (runTicks tick c (env :: rest)).stop = (runTicks tick (tick c env).client rest).stop ∧
    (runTicks tick c (env :: rest)).client = (runTicks tick (tick c env).client rest).client := by
  simp only [runTicks, h, ne_eq, not_true_eq_false, if_false, and_self]

theorem refreshTick_quiet (c : Client) (t : TickEnv)
    (h : timeSince t.clock c.lastRefresh ≤ 60 * second) :
    refreshTick c t = { requests := [], err := none, client := c } := by
  have hn : ¬ timeSince t.clock c.lastRefresh > refreshLimit := not_lt.mpr h
  simp only [refreshTick, hn, if_false]

theorem subscriptionRefreshTick_quiet (c : Client) (t : TickEnv)
    (h : timeSince t.clock c.lastSubscriptionRefresh ≤ 30 * second) :
    subscriptionRefreshTick c t = { requests := [], err := none, client := c } := by
  have hn : ¬ timeSince t.clock c.lastSubscriptionRefresh > subscriptionRefreshLimit :=
    not_lt.mpr h
  simp only [subscriptionRefreshTick, hn, if_false]

theorem refreshTick_success (c : Client) (env : TickEnv) (res : Response)
    (hgt : timeSince env.clock c.lastRefresh > 60 * second) (hreply : env.reply = .ok res) :
    (refreshTick c env).requests = [.aaaRefresh] ∧ (refreshTick c env).err = none ∧
    (refreshTick c env).client.lastRefresh = env.doneAt := by
  have hgt' : timeSince env.clock c.lastRefresh > refreshLimit := hgt
  simp [refreshTick, hgt', hreply, refresh]

theorem subscriptionRefreshTick_success (c : Client) (env : TickEnv) (status : Nat)
    (cookies : List Cookie) (body : Json)
    (hgt : timeSince env.clock c.lastSubscriptionRefresh > 30 * second)
    (hreply : env.reply = .ok ⟨status, cookies, .ok body⟩)
    (herr : resultStr (body.get replyErrorPath) = "") :
    (subscriptionRefreshTick c env).requests = [.subscriptionRefresh c.subscriptionID] ∧
    (subscriptionRefreshTick c env).err = none ∧
    (subscriptionRefreshTick c env).client.lastSubscriptionRefresh = env.doneAt := by
  have hgt' : timeSince env.clock c.lastSubscriptionRefresh > subscriptionRefreshLimit := hgt
  simp [subscriptionRefreshTick, hgt', hreply, refreshSubscription, herr]

theorem runTicks_crossing (tick : Client → TickEnv → TickResult) (c : Client)
    (quiet1 : List TickEnv) (env : TickEnv) (quiet2 rest : List TickEnv)
    (h1 : ∀ t ∈ quiet1, tick c t = { requests := [], err := none, client := c })
    (herr : (tick c env).err = none)
    (h2 : ∀ t ∈ quiet2, tick (tick c env).client t
      = { requests := [], err := none, client := (tick c env).client }) :
    (runTicks tick c (quiet1 ++ env :: (quiet2 ++ rest))).requests
        = quiet1.map (fun _ => []) ++ (tick c env).requests ::
            (quiet2.map (fun _ => []) ++ (runTicks tick (tick c env).client rest).requests) ∧
    (runTicks tick c (quiet1 ++ env :: (quiet2 ++ rest))).stop
        = (runTicks tick (tick c env).client rest).stop ∧
    (runTicks tick c (quiet1 ++ env :: (quiet2 ++ rest))).client
        = (runTicks tick (tick c env).client rest).client := by
  have a := runTicks_quiet tick c quiet1 (env :: (quiet2 ++ rest)) h1
  have b := runTicks_continue tick c env (quiet2 ++ rest) herr
  have d := runTicks_quiet tick (tick c env).client quiet2 rest h2
  refine ⟨?_, ?_, ?_⟩
  · rw [a.1, b.1, d.1]
  · rw [a.2.1, b.2.1, d.2.1]
  · rw [a.2.2, b.2.2, d.2.2]

/-- C6 fails on the code: a pass of `refreshLoop` made exactly 60 s after the
last refresh, and a pass of `subscriptionRefreshLoop` made exactly 30 s after
it, issue no request, although the elapsed time has reached the threshold. -/
theorem tick_at_threshold_issues_nothing :
    timeSince (60 * second + 5) sampleClient.lastRefresh = 60 * second ∧
    (refreshTick sampleClient ⟨60 * second + 5, okReply .null, 61 * second⟩).requests = [] ∧
    timeSince (30 * second + 7) sampleClient.lastSubscriptionRefresh = 30 * second ∧
    (subscriptionRefreshTick sampleClient ⟨30 * second + 7, okReply .null, 31 * second⟩).requests
        = [] := by
  decide

/-- C6, as the code stands. A pass of `refreshLoop` (threshold 60 s) or of
`subscriptionRefreshLoop` (threshold 30 s) made a time `t` after the last
recorded refresh issues no request when `t` is at most the threshold and exactly
one when `t` is greater. In a run of either loop, the passes made within the
threshold of the recorded time issue nothing and leave the client as it is; a
pass made later issues one request, and when that refresh succeeds the recorded
time is the time of the refresh, every following pass made within the threshold
of it issues nothing, and the run goes on from that client. After a successful
login `refreshLoop` issues no request and keeps looping over all passes made
within 60 s of it. -/
theorem refresh_ticks (c : Client) (env : TickEnv) :
    ((refreshTick c env).requests
        = if timeSince env.clock c.lastRefresh > 60 * second then [.aaaRefresh] else []) ∧
    ((subscriptionRefreshTick c env).requests
        = if timeSince env.clock c.lastSubscriptionRefresh > 30 * second
          then [.subscriptionRefresh c.subscriptionID] else []) ∧
    (∀ quiet rest, (∀ t ∈ quiet, timeSince t.clock c.lastRefresh ≤ 60 * second) →
      (refreshLoop c (quiet ++ rest)).requests
          = quiet.map (fun _ => []) ++ (refreshLoop c rest).requests ∧
      (refreshLoop c (quiet ++ rest)).stop = (refreshLoop c rest).stop ∧
      (refreshLoop c (quiet ++ rest)).client = (refreshLoop c rest).client) ∧
    (∀ quiet rest, (∀ t ∈ quiet, timeSince t.clock c.lastSubscriptionRefresh ≤ 30 * second) →
      (subscriptionRefreshLoop c (quiet ++ rest)).requests
          = quiet.map (fun _ => []) ++ (subscriptionRefreshLoop c rest).requests ∧
      (subscriptionRefreshLoop c (quiet ++ rest)).stop = (subscriptionRefreshLoop c rest).stop ∧
      (subscriptionRefreshLoop c (quiet ++ rest)).client
          = (subscriptionRefreshLoop c rest).client) ∧
    (∀ res quiet1 quiet2 rest,
      (∀ t ∈ quiet1, timeSince t.clock c.lastRefresh ≤ 60 * second) →
      timeSince env.clock c.lastRefresh > 60 * second → env.reply = .ok res →
      (∀ t ∈ quiet2, timeSince t.clock env.doneAt ≤ 60 * second) →
      (refreshTick c env).client.lastRefresh = env.doneAt ∧
      (refreshLoop c (quiet1 ++ env :: (quiet2 ++ rest))).requests
          = quiet1.map (fun _ => []) ++ [.aaaRefresh] ::
              (quiet2.map (fun _ => []) ++ (refreshLoop (refreshTick c env).client rest).requests) ∧
      (refreshLoop c (quiet1 ++ env :: (quiet2 ++ rest))).stop
          = (refreshLoop (refreshTick c env).client rest).stop ∧
      (refreshLoop c (quiet1 ++ env :: (quiet2 ++ rest))).client
          = (refreshLoop (refreshTick c env).client rest).client) ∧
    (∀ status cookies body quiet1 quiet2 rest,
      (∀ t ∈ quiet1, timeSince t.clock c.lastSubscriptionRefresh ≤ 30 * second) →
      timeSince env.clock c.lastSubscriptionRefresh > 30 * second →
      env.reply = .ok ⟨status, cookies, .ok body⟩ → resultStr (body.get replyErrorPath) = "" →
      (∀ t ∈ quiet2, timeSince t.clock env.doneAt ≤ 30 * second) →
      (subscriptionRefreshTick c env).client.lastSubscriptionRefresh = env.doneAt ∧
      (subscriptionRefreshLoop c (quiet1 ++ env :: (quiet2 ++ rest))).requests
          = quiet1.map (fun _ => []) ++ [.subscriptionRefresh c.subscriptionID] ::
              (quiet2.map (fun _ => []) ++
                (subscriptionRefreshLoop (subscriptionRefreshTick c env).client rest).requests) ∧
      (subscriptionRefreshLoop c (quiet1 ++ env :: (quiet2 ++ rest))).stop
          = (subscriptionRefreshLoop (subscriptionRefreshTick c env).client rest).stop ∧
      (subscriptionRefreshLoop c (quiet1 ++ env :: (quiet2 ++ rest))).client
          = (subscriptionRefreshLoop (subscriptionRefreshTick c env).client rest).client) ∧
    (∀ cookies body now ticks,
      (login c (.ok ⟨200, cookies, .ok body⟩) now).1 = .returned none →
      (∀ t ∈ ticks, timeSince t.clock now ≤ 60 * second) →
      (refreshLoop (login c (.ok ⟨200, cookies, .ok body⟩) now).2 ticks).requests
          = ticks.map (fun _ => []) ∧
      (refreshLoop (login c (.ok ⟨200, cookies, .ok body⟩) now).2 ticks).stop = .looping) := by
  refine ⟨?_, ?_, ?_, ?_, ?_, ?_, ?_⟩
  · simp only [refreshTick, refreshLimit]
    split <;> rfl
  · simp only [subscriptionRefreshTick, subscriptionRefreshLimit]
    split <;> rfl
  · intro quiet rest h
    exact runTicks_quiet refreshTick c quiet rest (fun t ht => refreshTick_quiet c t (h t ht))
  · intro quiet rest h
    exact runTicks_quiet subscriptionRefreshTick c quiet rest
      (fun t ht => subscriptionRefreshTick_quiet c t (h t ht))
  · intro res quiet1 quiet2 rest h1 hgt hreply h2
    have hs := refreshTick_success c env res hgt hreply
    have hx := runTicks_crossing refreshTick c quiet1 env quiet2 rest
      (fun t ht => refreshTick_quiet c t (h1 t ht)) hs.2.1
      (fun t ht => refreshTick_quiet _ t (by rw [hs.2.2]; exact h2 t ht))
    rw [hs.1] at hx
    exact ⟨hs.2.2, hx⟩
  · intro status cookies body quiet1 quiet2 rest h1 hgt hreply herr h2
    have hs := subscriptionRefreshTick_success c env status cookies body hgt hreply herr
    have hx := runTicks_crossing subscriptionRefreshTick c quiet1 env quiet2 rest
      (fun t ht => subscriptionRefreshTick_quiet c t (h1 t ht)) hs.2.1
      (fun t ht => subscriptionRefreshTick_quiet _ t (by rw [hs.2.2]; exact h2 t ht))
    rw [hs.1] at hx
    exact ⟨hs.2.2, hx⟩
  · intro cookies body now ticks hlogin hticks
    rw [login_ok_value] at hlogin ⊢
    by_cases herr : resultStr (resultGet (body.get recordPath) errorTextPath) = ""
    · simp only [herr, ne_eq, not_true_eq_false, if_false]
      have hq := runTicks_quiet refreshTick
        { afterHttp c (.ok ⟨200, cookies, .ok body⟩) with lastRefresh := now } ticks []
        (fun t ht => refreshTick_quiet _ t (hticks t ht))
      simp only [List.append_nil] at hq
      exact ⟨by simpa [runTicks] using hq.1, by simpa [runTicks] using hq.2.1⟩
    · simp [herr] at hlogin

theorem refresh_ticks_witness :
    ((refreshLoop sampleClient
        ([tickAt (10 * second), tickAt (60 * second + 5)] ++ tickAt (60 * second + 6) ::
          ([tickAt (62 * second), tickAt (121 * second + 6)] ++
            [tickAt (121 * second + 7)]))).requests
      = [tickAt (10 * second), tickAt (60 * second + 5)].map (fun _ => []) ++ [.aaaRefresh] ::
          ([tickAt (62 * second), tickAt (121 * second + 6)].map (fun _ => []) ++
            (refreshLoop (refreshTick sampleClient (tickAt (60 * second + 6))).client
              [tickAt (121 * second + 7)]).requests)) ∧
    ((subscriptionRefreshLoop sampleClient
        ([tickAt (30 * second + 7)] ++ tickAt (30 * second + 8) ::
          ([tickAt (61 * second + 8)] ++ [tickAt (61 * second + 9)]))).requests
      = [tickAt (30 * second + 7)].map (fun _ => []) ++ [.subscriptionRefresh "old"] ::
          ([tickAt (61 * second + 8)].map (fun _ => []) ++
            (subscriptionRefreshLoop
              (subscriptionRefreshTick sampleClient (tickAt (30 * second + 8))).client
              [tickAt (61 * second + 9)]).requests)) ∧
    (refreshLoop sampleClient
        [tickAt (10 * second), tickAt (60 * second + 5), tickAt (60 * second + 6),
          tickAt (62 * second), tickAt (121 * second + 6), tickAt (121 * second + 7)]).requests
      = [[], [], [.aaaRefresh], [], [], [.aaaRefresh]] ∧
    (subscriptionRefreshLoop sampleClient
        [tickAt (30 * second + 7), tickAt (30 * second + 8), tickAt (61 * second + 8),
          tickAt (61 * second + 9)]).requests
      = [[], [.subscriptionRefresh "old"], [], [.subscriptionRefresh "old"]] :=
  ⟨((refresh_ticks sampleClient (tickAt (60 * second + 6))).2.2.2.2.1
      ⟨200, [], .ok .null⟩ [tickAt (10 * second), tickAt (60 * second + 5)]
      [tickAt (62 * second), tickAt (121 * second + 6)] [tickAt (121 * second + 7)]
      (by decide) (by decide) rfl (by decide)).2.1,
    ((refresh_ticks sampleClient (tickAt (30 * second + 8))).2.2.2.2.2.1
      200 [] .null [tickAt (30 * second + 7)] [tickAt (61 * second + 8)]
      [tickAt (61 * second + 9)]
      (by decide) (by decide) rfl (by decide) (by decide)).2.1,
    by decide, by decide⟩

/-! ## Event listener -/

theorem listenSocket_readOk (valid : Message → Bool) (msgs : List Message) :
    listenSocket valid (msgs.map readOk) = (msgs.map (handleMessage valid), .looping) := by
  induction msgs with
  | nil => rfl
  | cons m rest ih =>
    simp only [List.map_cons, listenSocket, readOk, ne_eq, not_true_eq_false, if_false]
    simp only [readOk] at ih
    rw [ih]

theorem emitted_handle (valid : Message → Bool) (msgs : List Message) :
    emitted (msgs.map (handleMessage valid)) = msgs.filter valid := by
  induction msgs with
  | nil => rfl
  | cons m rest ih =>
    cases h : valid m <;> simp [handleMessage, h, emitted, ih]

theorem warned_handle (valid : Message → Bool) (msgs : List Message) :
    warned (msgs.map (handleMessage valid)) = msgs.filter (fun m => !valid m) := by
  induction msgs with
  | nil => rfl
  | cons m rest ih =>
    cases h : valid m <;> simp [handleMessage, h, warned, ih]

theorem closes_handle (valid : Message → Bool) (msgs : List Message) :
    closes (msgs.map (handleMessage valid)) = 0 := by
  induction msgs with
  | nil => rfl
  | cons m rest ih =>
    cases h : valid m <;> simp [handleMessage, h, closes, ih]

/-- C7: on a finite sequence of successfully read messages `listenSocket` prints
exactly the valid messages and warns about exactly the invalid ones, each once
and in arrival order, closes nothing and is still reading; two invalid
messages followed by a valid one give two warnings, then one printed message,
and a listener still reading. -/
theorem listenSocket_messages (valid : Message → Bool) (msgs : List Message) :
    emitted (listenSocket valid (msgs.map readOk)).1 = msgs.filter valid ∧
    warned (listenSocket valid (msgs.map readOk)).1 = msgs.filter (fun m => !valid m) ∧
    (listenSocket valid (msgs.map readOk)).1.length = msgs.length ∧
    closes (listenSocket valid (msgs.map readOk)).1 = 0 ∧
    (listenSocket valid (msgs.map readOk)).2 = .looping ∧
    (∀ m1 m2 m3, valid m1 = false → valid m2 = false → valid m3 = true →
      listenSocket valid ([m1, m2, m3].map readOk) = ([.warn m1, .warn m2, .emit m3], .looping)) := by
  rw [listenSocket_readOk]
  refine ⟨emitted_handle valid msgs, warned_handle valid msgs, by simp,
    closes_handle valid msgs, rfl, ?_⟩
  intro m1 m2 m3 h1 h2 h3
  rw [listenSocket_readOk]
  simp [handleMessage, h1, h2, h3]

theorem listenSocket_messages_witness :
    listenSocket isEmptyObject ([[91], [123], [123, 125]].map readOk)
      = ([.warn [91], .warn [123], .emit [123, 125]], .looping) :=
  (listenSocket_messages isEmptyObject []).2.2.2.2.2 [91] [123] [123, 125]
    (by decide) (by decide) (by decide)

theorem firstFailure_eq_none (reads : List Read) :
    firstFailure reads = none ↔ ∀ r ∈ reads, r.err = none := by
  induction reads with
  | nil => simp [firstFailure]
  | cons r rest ih =>
    by_cases h : r.err = none
    · simp [firstFailure, h, ih]
    · simp [firstFailure, h]

theorem listenSocket_value (valid : Message → Bool) (reads : List Read) :
    listenSocket valid reads
      = if firstFailure reads ≠ none then
          ((readsBeforeFailure reads).map (fun r => handleMessage valid r.msg) ++ [.close],
            .returned (firstFailure reads))
        else (reads.map (fun r => handleMessage valid r.msg), .looping) := by
  induction reads with
  | nil => simp [listenSocket, firstFailure]
  | cons r rest ih =>
    by_cases h : r.err = none
    · simp only [listenSocket, firstFailure, readsBeforeFailure, h, ne_eq, not_true_eq_false,
        if_false, ih, List.map_cons]
      split <;> simp
    · simp [listenSocket, firstFailure, readsBeforeFailure, h]

theorem closes_append_close (valid : Message → Bool) (reads : List Read) :
    closes ((reads.map (fun r => handleMessage valid r.msg)) ++ [.close]) = 1 := by
  induction reads with
  | nil => rfl
  | cons r rest ih =>
    simp only [List.map_cons, List.cons_append]
    cases h : valid r.msg <;> simp only [handleMessage, h] <;> exact ih

/-- C8: `listenSocket` returns exactly when a read fails; it then returns the
error of the first failing read, which is not nil, has handled the messages
read before it and none after, and has closed the stream exactly once. While
no read has failed it has not returned and has not closed the stream. -/
theorem listenSocket_returns (valid : Message → Bool) (reads : List Read) :
    ((listenSocket valid reads).2 = .looping ↔ ∀ r ∈ reads, r.err = none) ∧
    ((∃ r ∈ reads, r.err ≠ none) →
      (listenSocket valid reads).2 = .returned (firstFailure reads)) ∧
    (∀ err, (listenSocket valid reads).2 = .returned err →
      err ≠ none ∧ err = firstFailure reads ∧
      (listenSocket valid reads).1
        = (readsBeforeFailure reads).map (fun r => handleMessage valid r.msg) ++ [.close] ∧
      closes (listenSocket valid reads).1 = 1) ∧
    ((listenSocket valid reads).2 = .looping → closes (listenSocket valid reads).1 = 0) := by
  rw [listenSocket_value]
  by_cases h : firstFailure reads = none
  · have hall := (firstFailure_eq_none reads).mp h
    simp only [h, ne_eq, not_true_eq_false, if_false, true_iff]
    refine ⟨hall, ?_, ?_, ?_⟩
    · rintro ⟨r, hr, hne⟩
      exact absurd (hall r hr) hne
    · intro err herr
      exact LoopEnd.noConfusion herr
    · intro _
      have := closes_handle valid (reads.map (fun r => r.msg))
      simpa [List.map_map] using this
  · have hsome : ∃ r ∈ reads, r.err ≠ none := by
      by_contra hno
      push_neg at hno
      exact h ((firstFailure_eq_none reads).mpr hno)
    simp only [h, ne_eq, not_false_eq_true, if_true]
    refine ⟨?_, fun _ => trivial, ?_, ?_⟩
    · constructor
      · intro hl
        exact LoopEnd.noConfusion hl
      · intro hall
        exact absurd ((firstFailure_eq_none reads).mpr hall) h
    · intro err herr
      have he : firstFailure reads = err := by
        simpa using herr
      refine ⟨?_, he.symm, trivial, closes_append_close valid _⟩
      rw [← he]
      exact h
    · intro hl
      exact LoopEnd.noConfusion hl

theorem listenSocket_returns_witness :
    (listenSocket isEmptyObject
        [readOk [123, 125], readOk [91], ⟨[], some "EOF"⟩, readOk [123, 125]]).2
      = .returned (some "EOF") ∧
    (listenSocket isEmptyObject
        [readOk [123, 125], readOk [91], ⟨[], some "EOF"⟩, readOk [123, 125]]).1
      = [.emit [123, 125], .warn [91], .close] :=
  ⟨(listenSocket_returns isEmptyObject
      [readOk [123, 125], readOk [91], ⟨[], some "EOF"⟩, readOk [123, 125]]).2.1
      ⟨⟨[], some "EOF"⟩, by simp, by decide⟩,
    by decide⟩

end WsTestTool
